import Mathlib

/-!
Shallow embedding of the `bland_functions` repository: each Python wrapper
function is modelled as a pure build phase (validation + request
construction, `*_build`) followed by a run phase that consults an abstract
transport and normalizes failures, mirroring the source line by line.

Python values appearing in JSON bodies are modelled by `JVal`; Python
`float` parameters are modelled as rationals (the source only compares and
forwards them, never does float arithmetic).  Python `None` for an optional
parameter is `Option.none`; Python truthiness of strings is emptiness.
-/

/-- JSON-like values: the payloads, query parameters and response bodies
exchanged with the provider API. -/
inductive JVal where
  | null
  | bool (b : Bool)
  | int (n : Int)
  | rat (q : ℚ)
  | str (s : String)
  | arr (xs : List JVal)
  | obj (kvs : List (String × JVal))

/-- Truthiness of a JSON value, as Python evaluates it in `if x:`. -/
def jTruthy : JVal → Bool
  | .null => false
  | .bool b => b
  | .int n => n != 0
  | .rat q => q != 0
  | .str s => s != ""
  | .arr xs => !xs.isEmpty
  | .obj kvs => !kvs.isEmpty

/-- Truthiness of an optional JSON value (a Python parameter defaulting to None). -/
def optJTruthy : Option JVal → Bool
  | none => false
  | some v => jTruthy v

/-- Truthiness of an optional string parameter: `None` and `""` are falsy. -/
def strTruthy : Option String → Bool
  | none => false
  | some s => s != ""

/-- Lift an optional string parameter into an optional JSON value. -/
def optStr : Option String → Option JVal
  | none => none
  | some s => some (.str s)

/-- Lift an optional integer parameter into an optional JSON value. -/
def optInt : Option Int → Option JVal
  | none => none
  | some n => some (.int n)

/-- Lift an optional rational (Python float) parameter into an optional JSON value. -/
def optRat : Option ℚ → Option JVal
  | none => none
  | some q => some (.rat q)

/-- Lift an optional boolean parameter into an optional JSON value. -/
def optBool : Option Bool → Option JVal
  | none => none
  | some b => some (.bool b)

/-- Drop the entries holding Python `None`, keeping order: the embedding of
`{k: v for k, v in d.items() if v is not None}`. -/
def filterNone (ps : List (String × Option JVal)) : List (String × JVal) :=
  ps.filterMap (fun kv => kv.2.map (fun v => (kv.1, v)))

/-- Field access `v.get(k)` on a decoded JSON dictionary. -/
def jGet (v : JVal) (k : String) : Option JVal :=
  match v with
  | .obj kvs => kvs.lookup k
  | _ => none

/-- An assembled HTTP request: method, resolved URL, headers, JSON body and
query parameters, exactly the data handed to `requests`. -/
structure Request where
  method : String
  url : String
  headers : List (String × String)
  body : List (String × JVal) := []
  queryParams : List (String × JVal) := []

/-- An HTTP response as seen by the client: numeric status code, reason
phrase and decoded JSON body. -/
structure HttpResponse where
  statusCode : Nat
  reason : String
  body : JVal

/-- Outcome of handing a request to the HTTP client: either a response came
back, or the connection failed with some description. -/
inductive TransportResult where
  | resp (r : HttpResponse)
  | connError (detail : String)

/-- An abstract transport: what `requests.get`/`requests.post` do on each
assembled request. -/
def Transport := Request → TransportResult

/-- The request exceptions of the `requests` library that the wrappers
catch: `HTTPError` (from `raise_for_status`) and `ConnectionError`. -/
inductive RequestExc where
  | httpError (statusCode : Nat) (reason : String) (url : String)
  | connectionError (detail : String)

/-- String rendering of a request exception, following how `requests`
builds the messages: `raise_for_status` formats
`"{code} Client Error: {reason} for url: {url}"` (or `Server Error` for
5xx), and a `ConnectionError` renders as the wrapped error's description. -/
def excMessage : RequestExc → String
  | .httpError code reason url =>
      if code < 500 then
        toString code ++ " Client Error: " ++ reason ++ " for url: " ++ url
      else
        toString code ++ " Server Error: " ++ reason ++ " for url: " ++ url
  | .connectionError detail => detail

/-- A request exception carries a description: `raise_for_status` messages
are non-empty by construction, and a real connection error's description
(the wrapped urllib3 error text) is non-empty. -/
def RequestExc.descriptive : RequestExc → Prop
  | .httpError _ _ _ => True
  | .connectionError detail => detail ≠ ""

/-- The embedding of `response.raise_for_status()`: 4xx and 5xx status
codes raise an `HTTPError`, anything else is let through. -/
def raiseForStatus (r : HttpResponse) (url : String) : Option RequestExc :=
  if 400 ≤ r.statusCode ∧ r.statusCode < 600 then
    some (.httpError r.statusCode r.reason url)
  else
    none

/-- Send one request: a connection failure or a `raise_for_status` failure
surfaces as a request exception, otherwise the decoded body is returned. -/
def runTransport (t : Transport) (req : Request) : Except RequestExc JVal :=
  match t req with
  | .connError d => .error (.connectionError d)
  | .resp r =>
    match raiseForStatus r req.url with
    | some e => .error e
    | none => .ok r.body

/-- The normalized failure value `{"status": "error", "message": msg}`
every wrapper returns from its `except` clause. -/
def errorDict (msg : String) : JVal :=
  .obj [("status", .str "error"), ("message", .str msg)]

/-- The normalized failure value built from a caught request exception. -/
def excDict (e : RequestExc) : JVal :=
  errorDict (excMessage e)

/-- Generic operation skeleton shared by the wrappers: a failed build phase
propagates its `ValueError`; otherwise the request is sent and a caught
request exception is folded into the operation's error dictionary. -/
def runOp (t : Transport) (build : Except String Request)
    (onExc : RequestExc → JVal) : Except String JVal :=
  match build with
  | .error e => .error e
  | .ok req =>
    match runTransport t req with
    | .error e => .ok (onExc e)
    | .ok v => .ok v

/-- Whether a build phase succeeded (no validation error was raised). -/
def buildSucceeds : Except String Request → Bool
  | .ok _ => true
  | .error _ => false

/-- Body entry of a successfully built request, `none` on a failed build. -/
def bodyLookup (b : Except String Request) (k : String) : Option JVal :=
  match b with
  | .ok req => req.body.lookup k
  | .error _ => none

/-- Query-parameter entry of a successfully built request. -/
def paramsLookup (b : Except String Request) (k : String) : Option JVal :=
  match b with
  | .ok req => req.queryParams.lookup k
  | .error _ => none

/-- The headers of a built request whose name carries the organization id
(either of the two names used across the repository). -/
def orgHeaders (req : Request) : List (String × String) :=
  req.headers.filter (fun kv => kv.1 == "organization" || kv.1 == "encrypted_key")

/-- Left brace character, kept out of string literals. -/
def lbrace : Char := Char.ofNat 123

/-- Right brace character, kept out of string literals. -/
def rbrace : Char := Char.ofNat 125

/-- The placeholder `{field}` as it appears inside an endpoint template. -/
def placeholder (field : String) : String :=
  String.singleton lbrace ++ field ++ String.singleton rbrace

/-- Fuel-driven worker for `replaceChars`; each step consumes at least one
character, so fuel equal to the length of the scanned list suffices. -/
def replaceCharsAux (pat rep : List Char) : Nat → List Char → List Char
  | _, [] => []
  | 0, s => s
  | fuel + 1, c :: cs =>
    if pat ≠ [] ∧ pat.isPrefixOf (c :: cs) then
      rep ++ replaceCharsAux pat rep fuel ((c :: cs).drop pat.length)
    else
      c :: replaceCharsAux pat rep fuel cs

/-- Leftmost, non-overlapping replacement of the character sequence `pat`
by `rep`, the semantics of Python `str.replace` (and of `str.format` for a
template whose placeholders all equal `pat`, with a brace-free `rep`). -/
def replaceChars (pat rep s : List Char) : List Char :=
  replaceCharsAux pat rep s.length s

/-- Python `template.format(field=value)` for a template whose only
placeholder is `{field}` and a value containing no braces: substitute the
placeholder everywhere. -/
def pyFormat (tmpl field value : String) : String :=
  String.mk (replaceChars (placeholder field).data value.data tmpl.data)

/-- Whether a URL still contains a brace, i.e. an unresolved placeholder. -/
def containsBrace (s : String) : Bool :=
  s.data.any (fun c => c == lbrace || c == rbrace)

/-- Python `str.isdigit()` on the ASCII strings at hand: non-empty and all
digits. -/
def pyIsDigit (s : String) : Bool :=
  !s.data.isEmpty && s.data.all Char.isDigit

/-- Python `str.upper()` on the ASCII strings at hand: upper-case each
character. -/
def pyUpper (s : String) : String :=
  String.mk (s.data.map Char.toUpper)

/-- A string wrapped in single-quote characters, as some source error
messages spell their literals. -/
def quoted (s : String) : String :=
  String.singleton (Char.ofNat 39) ++ s ++ String.singleton (Char.ofNat 39)

/-- Configuration constant from `config.py`. -/
def API_BASE_URL : String := "https://api.bland.ai"

/-- Configuration constant from `config.py`. -/
def API_VERSION : String := "v1"

/-- Endpoint template from `config.py`. -/
def CALLS_ENDPOINT : String := API_BASE_URL ++ "/" ++ API_VERSION ++ "/calls"

/-- Endpoint template from `config.py` (placeholder `call_id`). -/
def ANALYZE_ENDPOINT : String := CALLS_ENDPOINT ++ "/" ++ placeholder "call_id" ++ "/analyze"

/-- Endpoint template from `config.py`. -/
def PATHWAYS_ENDPOINT : String := API_BASE_URL ++ "/" ++ API_VERSION ++ "/pathways"

/-- Endpoint template from `config.py` (placeholder `pathway_id`). -/
def PATHWAY_DETAILS_ENDPOINT : String := PATHWAYS_ENDPOINT ++ "/" ++ placeholder "pathway_id"

/-- Endpoint alias from `config.py`. -/
def CREATE_PATHWAY_ENDPOINT : String := PATHWAYS_ENDPOINT

/-- Endpoint template from `config.py`. -/
def CUSTOM_TOOLS_ENDPOINT : String := API_BASE_URL ++ "/" ++ API_VERSION ++ "/tools"

/-- Endpoint template from `config.py`. -/
def LIST_CUSTOM_TOOLS_ENDPOINT : String := CUSTOM_TOOLS_ENDPOINT ++ "/list"

/-- Endpoint defined locally in `send_batch_calls.py` and `list_batches.py`. -/
def BATCH_CALLS_ENDPOINT : String := API_BASE_URL ++ "/" ++ API_VERSION ++ "/calls/batch"

/-- Endpoint defined locally in `list_web_agents.py`. -/
def WEB_AGENTS_ENDPOINT : String := API_BASE_URL ++ "/" ++ API_VERSION ++ "/web-agents"

/-- Default value from `config.py`. -/
def DEFAULT_MODEL : String := "enhanced"

/-- Default value from `config.py`. -/
def DEFAULT_VOICE : String := "mason"

/-- Default value from `config.py`. -/
def DEFAULT_LANGUAGE : String := "en-US"

/-- Default value from `config.py`. -/
def DEFAULT_MAX_DURATION : Int := 30

/-- Default value from `config.py`. -/
def DEFAULT_TEMPERATURE : ℚ := mkRat 7 10

/-- Default value from `config.py`. -/
def DEFAULT_INTERRUPTION_THRESHOLD : Int := 100

/-- Default value from `config.py`. -/
def DEFAULT_LIMIT : Int := 1000

/-- Keys of the `BACKGROUND_TRACKS` dictionary from `config.py`. -/
def BACKGROUND_TRACKS : List String := ["none", "office", "cafe", "restaurant"]

/-- Error message from `config.py`. -/
def ERROR_MISSING_AUTH : String := "Missing authorization header"

/-- Error message from `config.py`. -/
def ERROR_MISSING_PHONE : String := "Missing required parameter: phone_number"

/-- Error message from `config.py`. -/
def ERROR_MISSING_TASK : String := "Missing required parameter: task"

/-- Error message from `config.py`. -/
def ERROR_MISSING_PATHWAY : String := "Missing required parameter: pathway_id"

/-- Error message from `config.py`. -/
def ERROR_INVALID_PHONE : String := "Invalid phone number format"

/-- Error message from `config.py`. -/
def ERROR_INVALID_MODEL : String := "Invalid model. Must be one of: base, turbo, enhanced"

/-- Error message from `config.py`. -/
def ERROR_MISSING_CALL_ID : String := "Missing required parameter: call_id"

/-- Error message from `config.py`. -/
def ERROR_MISSING_GOAL : String := "Missing required parameter: goal"

/-- Error message from `config.py`. -/
def ERROR_MISSING_QUESTIONS : String := "Missing required parameter: questions"

/-- Error message from `config.py`. -/
def ERROR_NO_PATHWAYS : String := "No pathways found"

/-- Error message from `config.py`. -/
def ERROR_MISSING_PATHWAY_NAME : String := "Missing required parameter: name"

/-- Error message from `config.py`. -/
def ERROR_MISSING_NODES : String := "Missing required parameter: nodes"

/-- Error message from `config.py`. -/
def ERROR_MISSING_EDGES : String := "Missing required parameter: edges"

/-- Phone cleaning in `send_call.py` / `send_call_simple.py` /
`send_call_pathway_simple.py`: `re.sub(r'[^\d+]', '', phone_number)` keeps
only digits and plus signs (`\d` taken as ASCII digits here). -/
def cleanPhone (s : String) : String :=
  String.mk (s.data.filter (fun c => c.isDigit || c == '+'))

/-- The phone pattern those files then require:
`re.match(r'^\+?\d{10,15}$', phone)` — an optional leading plus followed by
10 to 15 digits spanning the whole string. -/
def matchesPhonePattern (s : String) : Bool :=
  let t := match s.data with
    | '+' :: rest => rest
    | cs => cs
  decide (10 ≤ t.length) && decide (t.length ≤ 15) && t.all Char.isDigit

/-- Arguments of `send_call` with the defaults of `send_call.py`. -/
structure SendCallArgs where
  auth_token : String
  phone_number : String
  task : Option String := none
  pathway_id : Option String := none
  start_node_id : Option String := none
  voice : String := DEFAULT_VOICE
  background_track : Option String := none
  first_sentence : Option String := none
  wait_for_greeting : Bool := false
  block_interruptions : Bool := false
  interruption_threshold : Int := DEFAULT_INTERRUPTION_THRESHOLD
  model : String := DEFAULT_MODEL
  temperature : ℚ := DEFAULT_TEMPERATURE
  keywords : Option JVal := none
  pronunciation_guide : Option JVal := none
  transfer_phone_number : Option String := none
  transfer_list : Option JVal := none
  language : String := DEFAULT_LANGUAGE
  timezone : Option String := none
  request_data : Option JVal := none
  tools : Option JVal := none
  dynamic_data : Option JVal := none
  start_time : Option String := none
  voicemail_message : Option String := none
  voicemail_action : Option JVal := none
  retryCfg : Option JVal := none
  max_duration : Int := DEFAULT_MAX_DURATION
  record : Bool := false
  from_number : Option String := none
  webhook : Option String := none
  webhook_events : Option JVal := none
  metadata : Option JVal := none
  summary_prompt : Option String := none
  analysis_prompt : Option String := none
  analysis_schema : Option JVal := none
  answered_by_enabled : Bool := false
  org_id : Option String := none

/-- The `optional_params` dictionary of `send_call.py`, in source order,
with each value still optional (Python `None` = `none`). -/
def send_call_optional_params (a : SendCallArgs) : List (String × Option JVal) :=
  [("task", optStr a.task),
   ("pathway_id", optStr a.pathway_id),
   ("start_node_id", optStr a.start_node_id),
   ("voice", some (.str a.voice)),
   ("background_track", optStr a.background_track),
   ("first_sentence", optStr a.first_sentence),
   ("wait_for_greeting", some (.bool a.wait_for_greeting)),
   ("block_interruptions", some (.bool a.block_interruptions)),
   ("interruption_threshold", some (.int a.interruption_threshold)),
   ("model", some (.str a.model)),
   ("temperature", some (.rat a.temperature)),
   ("keywords", a.keywords),
   ("pronunciation_guide", a.pronunciation_guide),
   ("transfer_phone_number", optStr a.transfer_phone_number),
   ("transfer_list", a.transfer_list),
   ("language", some (.str a.language)),
   ("timezone", optStr a.timezone),
   ("request_data", a.request_data),
   ("tools", a.tools),
   ("dynamic_data", a.dynamic_data),
   ("start_time", optStr a.start_time),
   ("voicemail_message", optStr a.voicemail_message),
   ("voicemail_action", a.voicemail_action),
   ("retry", a.retryCfg),
   ("max_duration", some (.int a.max_duration)),
   ("record", some (.bool a.record)),
   ("from", optStr a.from_number),
   ("webhook", optStr a.webhook),
   ("webhook_events", a.webhook_events),
   ("metadata", a.metadata),
   ("summary_prompt", optStr a.summary_prompt),
   ("analysis_prompt", optStr a.analysis_prompt),
   ("analysis_schema", a.analysis_schema),
   ("answered_by_enabled", some (.bool a.answered_by_enabled))]

/-- Validation and request construction of `send_call` (`send_call.py`),
statement by statement in source order. -/
def send_call_build (a : SendCallArgs) : Except String Request :=
  if a.auth_token = "" then .error ERROR_MISSING_AUTH
  else if a.phone_number = "" then .error ERROR_MISSING_PHONE
  else if strTruthy a.task = false ∧ strTruthy a.pathway_id = false then
    .error "Either task or pathway_id must be provided"
  else
    let phone := cleanPhone a.phone_number
    if matchesPhonePattern phone = false then .error ERROR_INVALID_PHONE
    else if a.model ∉ ["base", "turbo", "enhanced"] then .error ERROR_INVALID_MODEL
    else if strTruthy a.background_track = true ∧ a.background_track.getD "" ∉ BACKGROUND_TRACKS then
      .error "Invalid background track. Must be one of: none, office, cafe, restaurant"
    else
      let baseHeaders := [("authorization", a.auth_token), ("Content-Type", "application/json")]
      let headers := if strTruthy a.org_id = true then
          baseHeaders ++ [("organization", a.org_id.getD "")]
        else baseHeaders
      .ok { method := "POST"
            url := CALLS_ENDPOINT
            headers := headers
            body := ("phone_number", .str phone) :: filterNone (send_call_optional_params a) }

/-- The full `send_call` operation over an abstract transport. -/
def send_call (t : Transport) (a : SendCallArgs) : Except String JVal :=
  runOp t (send_call_build a) excDict

/-- Arguments of `send_call_simple` (`send_call_simple.py`). -/
structure SendCallSimpleArgs where
  auth_token : String
  phone_number : String
  task : String
  org_id : Option String := none

/-- Validation and request construction of `send_call_simple`
(`send_call_simple.py`), in source order. -/
def send_call_simple_build (a : SendCallSimpleArgs) : Except String Request :=
  if a.auth_token = "" then .error ERROR_MISSING_AUTH
  else if a.phone_number = "" then .error ERROR_MISSING_PHONE
  else if a.task = "" then .error ERROR_MISSING_TASK
  else
    let phone := cleanPhone a.phone_number
    if matchesPhonePattern phone = false then .error ERROR_INVALID_PHONE
    else
      let baseHeaders := [("authorization", a.auth_token), ("Content-Type", "application/json")]
      let headers := if strTruthy a.org_id = true then
          baseHeaders ++ [("organization", a.org_id.getD "")]
        else baseHeaders
      .ok { method := "POST"
            url := CALLS_ENDPOINT
            headers := headers
            body := [("phone_number", .str phone), ("task", .str a.task)] }

/-- The full `send_call_simple` operation over an abstract transport. -/
def send_call_simple (t : Transport) (a : SendCallSimpleArgs) : Except String JVal :=
  runOp t (send_call_simple_build a) excDict

/-- Arguments of `send_call_pathway_simple` (`send_call_pathway_simple.py`). -/
structure SendCallPathwaySimpleArgs where
  auth_token : String
  phone_number : String
  pathway_id : String
  org_id : Option String := none

/-- Validation and request construction of `send_call_pathway_simple`
(`send_call_pathway_simple.py`), in source order. -/
def send_call_pathway_simple_build (a : SendCallPathwaySimpleArgs) : Except String Request :=
  if a.auth_token = "" then .error ERROR_MISSING_AUTH
  else if a.phone_number = "" then .error ERROR_MISSING_PHONE
  else if a.pathway_id = "" then .error "Missing required parameter: pathway_id"
  else
    let phone := cleanPhone a.phone_number
    if matchesPhonePattern phone = false then .error ERROR_INVALID_PHONE
    else
      let baseHeaders := [("authorization", a.auth_token), ("Content-Type", "application/json")]
      let headers := if strTruthy a.org_id = true then
          baseHeaders ++ [("organization", a.org_id.getD "")]
        else baseHeaders
      .ok { method := "POST"
            url := CALLS_ENDPOINT
            headers := headers
            body := [("phone_number", .str phone), ("pathway_id", .str a.pathway_id)] }

/-- The full `send_call_pathway_simple` operation over an abstract transport. -/
def send_call_pathway_simple (t : Transport) (a : SendCallPathwaySimpleArgs) : Except String JVal :=
  runOp t (send_call_pathway_simple_build a) excDict

/-- Arguments of `send_batch_calls` with the defaults of
`send_batch_calls.py`. -/
structure SendBatchCallsArgs where
  auth_token : String
  phone_numbers : List String
  pathway_id : Option String := none
  task : Option String := none
  model : Option String := some DEFAULT_MODEL
  voice : Option String := some DEFAULT_VOICE
  language : Option String := some DEFAULT_LANGUAGE
  temperature : Option ℚ := some DEFAULT_TEMPERATURE
  max_duration : Option Int := some DEFAULT_MAX_DURATION
  schedule_time : Option String := none
  retry_config : Option JVal := none
  metadata : Option JVal := none
  org_id : Option String := none

/-- The range test of `send_batch_calls.py`:
`temperature is not None and not (0.0 <= temperature <= 1.0)`. -/
def tempOutOfRange : Option ℚ → Bool
  | none => false
  | some q => !(decide (0 ≤ q) && decide (q ≤ 1))

/-- The loose per-number check of `send_batch_calls.py`:
`number.startswith("+") and number[1:].isdigit()` must hold, else the
first failing number is reported. -/
def batchPhoneOk (n : String) : Bool :=
  (match n.data with
   | '+' :: rest => pyIsDigit (String.mk rest)
   | _ => false)

/-- Validation and request construction of `send_batch_calls`
(`send_batch_calls.py`), in source order. -/
def send_batch_calls_build (a : SendBatchCallsArgs) : Except String Request :=
  if a.auth_token = "" then .error ERROR_MISSING_AUTH
  else if a.phone_numbers = [] then .error ERROR_MISSING_PHONE
  else if strTruthy a.pathway_id = false ∧ strTruthy a.task = false then
    .error "Either pathway_id or task must be provided"
  else
    match a.phone_numbers.find? (fun n => !batchPhoneOk n) with
    | some n => .error (ERROR_INVALID_PHONE ++ ": " ++ n)
    | none =>
      if strTruthy a.model = true ∧ a.model.getD "" ∉ ["base", "turbo", "enhanced"] then
        .error "Invalid model. Must be one of: base, turbo, enhanced"
      else if tempOutOfRange a.temperature = true then
        .error "Temperature must be between 0.0 and 1.0"
      else
        let baseHeaders := [("authorization", a.auth_token), ("Content-Type", "application/json")]
        let headers := if strTruthy a.org_id = true then
            baseHeaders ++ [("encrypted_key", a.org_id.getD "")]
          else baseHeaders
        .ok { method := "POST"
              url := BATCH_CALLS_ENDPOINT
              headers := headers
              body := ("phone_numbers", .arr (a.phone_numbers.map .str)) ::
                filterNone
                  [("pathway_id", optStr a.pathway_id),
                   ("task", optStr a.task),
                   ("model", optStr a.model),
                   ("voice", optStr a.voice),
                   ("language", optStr a.language),
                   ("temperature", optRat a.temperature),
                   ("max_duration", optInt a.max_duration),
                   ("schedule_time", optStr a.schedule_time),
                   ("retry_config", a.retry_config),
                   ("metadata", a.metadata)] }

/-- The full `send_batch_calls` operation over an abstract transport. -/
def send_batch_calls (t : Transport) (a : SendBatchCallsArgs) : Except String JVal :=
  runOp t (send_batch_calls_build a) excDict

/-- Arguments of `analyze_call` (`analyze_call.py`); `questions` is a list
of JSON values (question/answer-type pairs). -/
structure AnalyzeCallArgs where
  auth_token : String
  call_id : String
  goal : String
  questions : List JVal

/-- Validation and request construction of `analyze_call`
(`analyze_call.py`), in source order; the `isinstance(questions, list)`
check always passes in this typed embedding. -/
def analyze_call_build (a : AnalyzeCallArgs) : Except String Request :=
  if a.auth_token = "" then .error ERROR_MISSING_AUTH
  else if a.call_id = "" then .error ERROR_MISSING_CALL_ID
  else if a.goal = "" then .error ERROR_MISSING_GOAL
  else if a.questions.isEmpty = true then .error ERROR_MISSING_QUESTIONS
  else
    .ok { method := "POST"
          url := pyFormat ANALYZE_ENDPOINT "call_id" a.call_id
          headers := [("authorization", a.auth_token), ("Content-Type", "application/json")]
          body := [("goal", .str a.goal), ("questions", .arr a.questions)] }

/-- The full `analyze_call` operation over an abstract transport. -/
def analyze_call (t : Transport) (a : AnalyzeCallArgs) : Except String JVal :=
  runOp t (analyze_call_build a) excDict

/-- Arguments of `get_pathway_info` (`get_pathway_info.py`). -/
structure GetPathwayInfoArgs where
  auth_token : String
  pathway_id : String
  org_id : Option String := none

/-- Validation and request construction of `get_pathway_info`
(`get_pathway_info.py`), in source order. -/
def get_pathway_info_build (a : GetPathwayInfoArgs) : Except String Request :=
  if a.auth_token = "" then .error ERROR_MISSING_AUTH
  else if a.pathway_id = "" then .error ERROR_MISSING_PATHWAY
  else
    let baseHeaders := [("authorization", a.auth_token)]
    let headers := if strTruthy a.org_id = true then
        baseHeaders ++ [("encrypted_key", a.org_id.getD "")]
      else baseHeaders
    .ok { method := "GET"
          url := pyFormat PATHWAY_DETAILS_ENDPOINT "pathway_id" a.pathway_id
          headers := headers }

/-- The full `get_pathway_info` operation over an abstract transport. -/
def get_pathway_info (t : Transport) (a : GetPathwayInfoArgs) : Except String JVal :=
  runOp t (get_pathway_info_build a) excDict

/-- Arguments of `create_custom_tool` (`create_custom_tool.py`); the
`headers` parameter of the tool itself is `toolHeaders` here to keep it
apart from the request headers. -/
structure CreateCustomToolArgs where
  auth_token : String
  name : String
  description : String
  endpoint : String
  method : String
  parameters : List JVal
  toolHeaders : Option JVal := none
  authentication : Option JVal := none
  response_mapping : Option JVal := none
  org_id : Option String := none

/-- Validation and request construction of `create_custom_tool`
(`create_custom_tool.py`), in source order: required-field checks, then
`method.upper()` must lie in `{GET, POST, PUT, DELETE}`, and the
upper-cased method is what is placed in the body. -/
def create_custom_tool_build (a : CreateCustomToolArgs) : Except String Request :=
  if a.auth_token = "" then .error ERROR_MISSING_AUTH
  else if a.name = "" then .error "Missing required parameter: name"
  else if a.description = "" then .error "Missing required parameter: description"
  else if a.endpoint = "" then .error "Missing required parameter: endpoint"
  else if a.method = "" then .error "Missing required parameter: method"
  else if a.parameters.isEmpty = true then .error "Missing required parameter: parameters"
  else if pyUpper a.method ∉ ["GET", "POST", "PUT", "DELETE"] then
    .error "Invalid method. Must be one of: GET, POST, PUT, DELETE"
  else
    let baseHeaders := [("authorization", a.auth_token), ("Content-Type", "application/json")]
    let headers := if strTruthy a.org_id = true then
        baseHeaders ++ [("encrypted_key", a.org_id.getD "")]
      else baseHeaders
    .ok { method := "POST"
          url := CUSTOM_TOOLS_ENDPOINT
          headers := headers
          body := [("name", .str a.name),
                   ("description", .str a.description),
                   ("endpoint", .str a.endpoint),
                   ("method", .str (pyUpper a.method)),
                   ("parameters", .arr a.parameters)] ++
            (if optJTruthy a.toolHeaders = true then [("headers", a.toolHeaders.getD .null)] else []) ++
            (if optJTruthy a.authentication = true then [("authentication", a.authentication.getD .null)] else []) ++
            (if optJTruthy a.response_mapping = true then [("response_mapping", a.response_mapping.getD .null)] else []) }

/-- The full `create_custom_tool` operation over an abstract transport. -/
def create_custom_tool (t : Transport) (a : CreateCustomToolArgs) : Except String JVal :=
  runOp t (create_custom_tool_build a) excDict

/-- Arguments of `list_custom_tools` with the defaults of
`list_custom_tools.py` (the code compares `page`/`limit` as integers). -/
structure ListCustomToolsArgs where
  auth_token : String
  page : Int := 1
  limit : Int := 10
  org_id : Option String := none

/-- Validation and request construction of `list_custom_tools`
(`list_custom_tools.py`), in source order. -/
def list_custom_tools_build (a : ListCustomToolsArgs) : Except String Request :=
  if a.auth_token = "" then .error ERROR_MISSING_AUTH
  else if a.page < 1 then .error "Page number must be greater than 0"
  else if a.limit < 1 then .error "Limit must be greater than 0"
  else
    let baseHeaders := [("authorization", a.auth_token), ("Content-Type", "application/json")]
    let headers := if strTruthy a.org_id = true then
        baseHeaders ++ [("encrypted_key", a.org_id.getD "")]
      else baseHeaders
    .ok { method := "GET"
          url := LIST_CUSTOM_TOOLS_ENDPOINT
          headers := headers
          queryParams := [("page", .int a.page), ("limit", .int a.limit)] }

/-- The error dictionary of `list_custom_tools`: alongside `status` and
`message` it carries empty-result fields (`tools`, `total`, `page`,
`total_pages`). -/
def listCustomToolsExcDict (page : Int) (e : RequestExc) : JVal :=
  .obj [("status", .str "error"),
        ("message", .str (excMessage e)),
        ("tools", .arr []),
        ("total", .int 0),
        ("page", .int page),
        ("total_pages", .int 0)]

/-- The full `list_custom_tools` operation over an abstract transport. -/
def list_custom_tools (t : Transport) (a : ListCustomToolsArgs) : Except String JVal :=
  runOp t (list_custom_tools_build a) (listCustomToolsExcDict a.page)

/-- Arguments of `list_batches` with the defaults of `list_batches.py`. -/
structure ListBatchesArgs where
  auth_token : String
  limit : Option Int := some DEFAULT_LIMIT
  offset : Option Int := some 0
  status : Option JVal := none
  date_range : Option JVal := none
  sort_by : Option String := none
  sort_order : Option String := some "desc"
  org_id : Option String := none

/-- The test `limit is not None and limit < 1` shared by `list_batches.py`
and `list_web_agents.py`. -/
def limitBad : Option Int → Bool
  | none => false
  | some l => decide (l < 1)

/-- The test `offset is not None and offset < 0` shared by
`list_batches.py` and `list_web_agents.py`. -/
def offsetBad : Option Int → Bool
  | none => false
  | some o => decide (o < 0)

/-- Validation and request construction of `list_batches`
(`list_batches.py`), in source order. -/
def list_batches_build (a : ListBatchesArgs) : Except String Request :=
  if a.auth_token = "" then .error ERROR_MISSING_AUTH
  else if limitBad a.limit = true then .error "Limit must be greater than 0"
  else if offsetBad a.offset = true then .error "Offset must be greater than or equal to 0"
  else if strTruthy a.sort_order = true ∧ a.sort_order.getD "" ∉ ["asc", "desc"] then
    .error ("Sort order must be either " ++ quoted "asc" ++ " or " ++ quoted "desc")
  else
    let baseHeaders := [("authorization", a.auth_token)]
    let headers := if strTruthy a.org_id = true then
        baseHeaders ++ [("encrypted_key", a.org_id.getD "")]
      else baseHeaders
    .ok { method := "GET"
          url := BATCH_CALLS_ENDPOINT
          headers := headers
          queryParams :=
            filterNone [("limit", optInt a.limit), ("offset", optInt a.offset)] ++
            (if optJTruthy a.status = true then [("status", a.status.getD .null)] else []) ++
            (if optJTruthy a.date_range = true then [("date_range", a.date_range.getD .null)] else []) ++
            (if strTruthy a.sort_by = true then
              [("sort_by", .str (a.sort_by.getD "")),
               ("sort_order", (optStr a.sort_order).getD .null)]
             else []) }

/-- The full `list_batches` operation over an abstract transport. -/
def list_batches (t : Transport) (a : ListBatchesArgs) : Except String JVal :=
  runOp t (list_batches_build a) excDict

/-- Arguments of `list_web_agents` with the defaults of
`list_web_agents.py`. -/
structure ListWebAgentsArgs where
  auth_token : String
  limit : Option Int := some DEFAULT_LIMIT
  offset : Option Int := some 0
  org_id : Option String := none

/-- Validation and request construction of `list_web_agents`
(`list_web_agents.py`), in source order. -/
def list_web_agents_build (a : ListWebAgentsArgs) : Except String Request :=
  if a.auth_token = "" then .error ERROR_MISSING_AUTH
  else if limitBad a.limit = true then .error "Limit must be greater than 0"
  else if offsetBad a.offset = true then .error "Offset must be greater than or equal to 0"
  else
    let baseHeaders := [("authorization", a.auth_token)]
    let headers := if strTruthy a.org_id = true then
        baseHeaders ++ [("encrypted_key", a.org_id.getD "")]
      else baseHeaders
    .ok { method := "GET"
          url := WEB_AGENTS_ENDPOINT
          headers := headers
          queryParams := filterNone [("limit", optInt a.limit), ("offset", optInt a.offset)] }

/-- The full `list_web_agents` operation over an abstract transport. -/
def list_web_agents (t : Transport) (a : ListWebAgentsArgs) : Except String JVal :=
  runOp t (list_web_agents_build a) excDict

/-- Arguments of `list_calls` with the defaults of `list_calls.py`. -/
structure ListCallsArgs where
  auth_token : String
  from_number : Option String := none
  to_number : Option String := none
  from_index : Option Int := none
  to_index : Option Int := none
  limit : Int := DEFAULT_LIMIT
  ascending : Bool := false
  start_date : Option String := none
  end_date : Option String := none
  created_at : Option String := none
  completed : Option Bool := none
  batch_id : Option String := none
  answered_by : Option String := none
  inbound : Option Bool := none
  duration_gt : Option ℚ := none
  duration_lt : Option ℚ := none
  campaign_id : Option String := none
  org_id : Option String := none

/-- Validation and request construction of `list_calls` (`list_calls.py`):
only the auth token is validated; `limit` and all filters are passed
straight through as query parameters. -/
def list_calls_build (a : ListCallsArgs) : Except String Request :=
  if a.auth_token = "" then .error ERROR_MISSING_AUTH
  else
    let baseHeaders := [("authorization", a.auth_token)]
    let headers := if strTruthy a.org_id = true then
        baseHeaders ++ [("encrypted_key", a.org_id.getD "")]
      else baseHeaders
    .ok { method := "GET"
          url := CALLS_ENDPOINT
          headers := headers
          queryParams := [("limit", .int a.limit), ("ascending", .bool a.ascending)] ++
            filterNone
              [("from_number", optStr a.from_number),
               ("to_number", optStr a.to_number),
               ("from", optInt a.from_index),
               ("to", optInt a.to_index),
               ("start_date", optStr a.start_date),
               ("end_date", optStr a.end_date),
               ("created_at", optStr a.created_at),
               ("completed", optBool a.completed),
               ("batch_id", optStr a.batch_id),
               ("answered_by", optStr a.answered_by),
               ("inbound", optBool a.inbound),
               ("duration_gt", optRat a.duration_gt),
               ("duration_lt", optRat a.duration_lt),
               ("campaign_id", optStr a.campaign_id)] }

/-- The full `list_calls` operation over an abstract transport. -/
def list_calls (t : Transport) (a : ListCallsArgs) : Except String JVal :=
  runOp t (list_calls_build a) excDict

/-- Arguments of `get_all_pathways` with the defaults of
`get_all_pathways.py`. -/
structure GetAllPathwaysArgs where
  auth_token : String
  limit : Int := DEFAULT_LIMIT
  offset : Int := 0
  org_id : Option String := none

/-- Validation and request construction of `get_all_pathways`
(`get_all_pathways.py`): only the auth token is validated; `limit` and
`offset` are passed straight through as query parameters. -/
def get_all_pathways_build (a : GetAllPathwaysArgs) : Except String Request :=
  if a.auth_token = "" then .error ERROR_MISSING_AUTH
  else
    let baseHeaders := [("authorization", a.auth_token)]
    let headers := if strTruthy a.org_id = true then
        baseHeaders ++ [("encrypted_key", a.org_id.getD "")]
      else baseHeaders
    .ok { method := "GET"
          url := PATHWAYS_ENDPOINT
          headers := headers
          queryParams := [("limit", .int a.limit), ("offset", .int a.offset)] }

/-- The full `get_all_pathways` operation: unlike the other wrappers it
inspects a successful body and raises `RuntimeError(ERROR_NO_PATHWAYS)`
(propagated here as `.error`) when no `pathways` entry is present. -/
def get_all_pathways (t : Transport) (a : GetAllPathwaysArgs) : Except String JVal :=
  match get_all_pathways_build a with
  | .error e => .error e
  | .ok req =>
    match runTransport t req with
    | .error e => .ok (excDict e)
    | .ok v => if optJTruthy (jGet v "pathways") = true then .ok v else .error ERROR_NO_PATHWAYS

/-- Arguments of `create_pathway` (`create_pathway.py`). -/
structure CreatePathwayArgs where
  auth_token : String
  name : String
  nodes : List JVal
  edges : List JVal
  description : Option String := none
  metadata : Option JVal := none
  org_id : Option String := none

/-- Validation and request construction of `create_pathway`
(`create_pathway.py`), in source order. -/
def create_pathway_build (a : CreatePathwayArgs) : Except String Request :=
  if a.auth_token = "" then .error ERROR_MISSING_AUTH
  else if a.name = "" then .error ERROR_MISSING_PATHWAY_NAME
  else if a.nodes.isEmpty = true then .error ERROR_MISSING_NODES
  else if a.edges.isEmpty = true then .error ERROR_MISSING_EDGES
  else
    let baseHeaders := [("authorization", a.auth_token), ("Content-Type", "application/json")]
    let headers := if strTruthy a.org_id = true then
        baseHeaders ++ [("encrypted_key", a.org_id.getD "")]
      else baseHeaders
    .ok { method := "POST"
          url := CREATE_PATHWAY_ENDPOINT
          headers := headers
          body := [("name", .str a.name), ("nodes", .arr a.nodes), ("edges", .arr a.edges)] ++
            (if strTruthy a.description = true then [("description", .str (a.description.getD ""))] else []) ++
            (if optJTruthy a.metadata = true then [("metadata", a.metadata.getD .null)] else []) }

/-- The full `create_pathway` operation over an abstract transport. -/
def create_pathway (t : Transport) (a : CreatePathwayArgs) : Except String JVal :=
  runOp t (create_pathway_build a) excDict


/-- A transport whose connection always fails, for concrete instantiation
of the transport-failure theorems. -/
def connFailTransport : Transport :=
  fun _ => .connError "Connection aborted."

/-- A transport that always answers 404, for concrete instantiation of the
transport-failure theorems. -/
def notFoundTransport : Transport :=
  fun _ => .resp { statusCode := 404, reason := "NOT FOUND", body := .null }

theorem runOp_transport_error {t : Transport} {build : Except String Request}
    {onExc : RequestExc → JVal} {req : Request} {e : RequestExc}
    (hb : build = .ok req) (ht : runTransport t req = .error e) :
    runOp t build onExc = .ok (onExc e) := by
  simp [runOp, hb, ht]

theorem excMessage_ne_empty (e : RequestExc) (h : e.descriptive) :
    excMessage e ≠ "" := by
  cases e with
  | connectionError d => exact h
  | httpError c r u =>
    intro hc
    have hlen := congrArg String.length hc
    simp only [excMessage] at hlen
    split at hlen <;> simp [String.length_append] at hlen <;>
      exact absurd hlen.1.1.1.2 (by decide)

theorem jGet_errorDict_status (m : String) :
    jGet (errorDict m) "status" = some (.str "error") := rfl

theorem jGet_errorDict_message (m : String) :
    jGet (errorDict m) "message" = some (.str m) := by
  simp [jGet, errorDict, List.lookup]

/-- C9: building the `get_pathway_info` request for `pathway_id = "p1"`
resolves the `{pathway_id}` placeholder of the pathway-details endpoint
template to `p1`, and no placeholder brace remains in the URL. -/
theorem get_pathway_info_url_substitutes_placeholder :
    ∃ req, get_pathway_info_build { auth_token := "tok", pathway_id := "p1" } = .ok req ∧
      req.url = pyFormat PATHWAY_DETAILS_ENDPOINT "pathway_id" "p1" ∧
      req.url = "https://api.bland.ai/v1/pathways/p1" ∧
      containsBrace req.url = false := by
  refine ⟨_, rfl, rfl, ?_, ?_⟩ <;> decide

/-- C2: every embedded operation called with an empty auth token raises
`ValueError(ERROR_MISSING_AUTH)` regardless of every other argument and of
the transport (so no request is sent), and that is the first check. -/
theorem missing_auth_raised_first :
    ERROR_MISSING_AUTH = "Missing authorization header" ∧
    (∀ (t : Transport) (a : SendCallArgs), a.auth_token = "" →
      send_call t a = .error ERROR_MISSING_AUTH) ∧
    (∀ (t : Transport) (a : SendCallSimpleArgs), a.auth_token = "" →
      send_call_simple t a = .error ERROR_MISSING_AUTH) ∧
    (∀ (t : Transport) (a : SendCallPathwaySimpleArgs), a.auth_token = "" →
      send_call_pathway_simple t a = .error ERROR_MISSING_AUTH) ∧
    (∀ (t : Transport) (a : SendBatchCallsArgs), a.auth_token = "" →
      send_batch_calls t a = .error ERROR_MISSING_AUTH) ∧
    (∀ (t : Transport) (a : AnalyzeCallArgs), a.auth_token = "" →
      analyze_call t a = .error ERROR_MISSING_AUTH) ∧
    (∀ (t : Transport) (a : GetPathwayInfoArgs), a.auth_token = "" →
      get_pathway_info t a = .error ERROR_MISSING_AUTH) ∧
    (∀ (t : Transport) (a : CreateCustomToolArgs), a.auth_token = "" →
      create_custom_tool t a = .error ERROR_MISSING_AUTH) ∧
    (∀ (t : Transport) (a : ListCustomToolsArgs), a.auth_token = "" →
      list_custom_tools t a = .error ERROR_MISSING_AUTH) ∧
    (∀ (t : Transport) (a : ListBatchesArgs), a.auth_token = "" →
      list_batches t a = .error ERROR_MISSING_AUTH) ∧
    (∀ (t : Transport) (a : ListWebAgentsArgs), a.auth_token = "" →
      list_web_agents t a = .error ERROR_MISSING_AUTH) ∧
    (∀ (t : Transport) (a : ListCallsArgs), a.auth_token = "" →
      list_calls t a = .error ERROR_MISSING_AUTH) ∧
    (∀ (t : Transport) (a : GetAllPathwaysArgs), a.auth_token = "" →
      get_all_pathways t a = .error ERROR_MISSING_AUTH) ∧
    (∀ (t : Transport) (a : CreatePathwayArgs), a.auth_token = "" →
      create_pathway t a = .error ERROR_MISSING_AUTH) := by
  refine ⟨rfl, ?_, ?_, ?_, ?_, ?_, ?_, ?_, ?_, ?_, ?_, ?_, ?_, ?_⟩ <;>
    intro t a h <;>
    simp [send_call, send_call_simple, send_call_pathway_simple, send_batch_calls,
      analyze_call, get_pathway_info, create_custom_tool, list_custom_tools,
      list_batches, list_web_agents, list_calls, get_all_pathways, create_pathway,
      send_call_build, send_call_simple_build, send_call_pathway_simple_build,
      send_batch_calls_build, analyze_call_build, get_pathway_info_build,
      create_custom_tool_build, list_custom_tools_build, list_batches_build,
      list_web_agents_build, list_calls_build, get_all_pathways_build,
      create_pathway_build, runOp, h]

/-- Concrete instance of the missing-auth theorem: `send_call` with an
empty token and otherwise valid arguments raises the missing-auth error. -/
theorem missing_auth_raised_first_witness :
    send_call connFailTransport
      { auth_token := "", phone_number := "+12025550101", task := some "hello" } =
      .error ERROR_MISSING_AUTH :=
  missing_auth_raised_first.2.1 connFailTransport
    { auth_token := "", phone_number := "+12025550101", task := some "hello" } rfl

/-- C1: whenever the transport raises a request exception — a connection
error or a 4xx/5xx status surfaced by `raise_for_status` — every embedded
operation catches it and returns a dictionary mapping `status` to
`"error"` and `message` to the exception's non-empty description, instead
of propagating the exception. -/
theorem transport_errors_normalized :
    (∀ (t : Transport) (a : SendCallArgs) (req : Request) (e : RequestExc),
      send_call_build a = .ok req → runTransport t req = .error e → e.descriptive →
      ∃ v, send_call t a = .ok v ∧ jGet v "status" = some (.str "error") ∧
        ∃ m, jGet v "message" = some (.str m) ∧ m ≠ "") ∧
    (∀ (t : Transport) (a : SendCallSimpleArgs) (req : Request) (e : RequestExc),
      send_call_simple_build a = .ok req → runTransport t req = .error e → e.descriptive →
      ∃ v, send_call_simple t a = .ok v ∧ jGet v "status" = some (.str "error") ∧
        ∃ m, jGet v "message" = some (.str m) ∧ m ≠ "") ∧
    (∀ (t : Transport) (a : SendCallPathwaySimpleArgs) (req : Request) (e : RequestExc),
      send_call_pathway_simple_build a = .ok req → runTransport t req = .error e → e.descriptive →
      ∃ v, send_call_pathway_simple t a = .ok v ∧ jGet v "status" = some (.str "error") ∧
        ∃ m, jGet v "message" = some (.str m) ∧ m ≠ "") ∧
    (∀ (t : Transport) (a : SendBatchCallsArgs) (req : Request) (e : RequestExc),
      send_batch_calls_build a = .ok req → runTransport t req = .error e → e.descriptive →
      ∃ v, send_batch_calls t a = .ok v ∧ jGet v "status" = some (.str "error") ∧
        ∃ m, jGet v "message" = some (.str m) ∧ m ≠ "") ∧
    (∀ (t : Transport) (a : AnalyzeCallArgs) (req : Request) (e : RequestExc),
      analyze_call_build a = .ok req → runTransport t req = .error e → e.descriptive →
      ∃ v, analyze_call t a = .ok v ∧ jGet v "status" = some (.str "error") ∧
        ∃ m, jGet v "message" = some (.str m) ∧ m ≠ "") ∧
    (∀ (t : Transport) (a : GetPathwayInfoArgs) (req : Request) (e : RequestExc),
      get_pathway_info_build a = .ok req → runTransport t req = .error e → e.descriptive →
      ∃ v, get_pathway_info t a = .ok v ∧ jGet v "status" = some (.str "error") ∧
        ∃ m, jGet v "message" = some (.str m) ∧ m ≠ "") ∧
    (∀ (t : Transport) (a : CreateCustomToolArgs) (req : Request) (e : RequestExc),
      create_custom_tool_build a = .ok req → runTransport t req = .error e → e.descriptive →
      ∃ v, create_custom_tool t a = .ok v ∧ jGet v "status" = some (.str "error") ∧
        ∃ m, jGet v "message" = some (.str m) ∧ m ≠ "") ∧
    (∀ (t : Transport) (a : ListCustomToolsArgs) (req : Request) (e : RequestExc),
      list_custom_tools_build a = .ok req → runTransport t req = .error e → e.descriptive →
      ∃ v, list_custom_tools t a = .ok v ∧ jGet v "status" = some (.str "error") ∧
        ∃ m, jGet v "message" = some (.str m) ∧ m ≠ "") ∧
    (∀ (t : Transport) (a : ListBatchesArgs) (req : Request) (e : RequestExc),
      list_batches_build a = .ok req → runTransport t req = .error e → e.descriptive →
      ∃ v, list_batches t a = .ok v ∧ jGet v "status" = some (.str "error") ∧
        ∃ m, jGet v "message" = some (.str m) ∧ m ≠ "") ∧
    (∀ (t : Transport) (a : ListWebAgentsArgs) (req : Request) (e : RequestExc),
      list_web_agents_build a = .ok req → runTransport t req = .error e → e.descriptive →
      ∃ v, list_web_agents t a = .ok v ∧ jGet v "status" = some (.str "error") ∧
        ∃ m, jGet v "message" = some (.str m) ∧ m ≠ "") ∧
    (∀ (t : Transport) (a : ListCallsArgs) (req : Request) (e : RequestExc),
      list_calls_build a = .ok req → runTransport t req = .error e → e.descriptive →
      ∃ v, list_calls t a = .ok v ∧ jGet v "status" = some (.str "error") ∧
        ∃ m, jGet v "message" = some (.str m) ∧ m ≠ "") ∧
    (∀ (t : Transport) (a : GetAllPathwaysArgs) (req : Request) (e : RequestExc),
      get_all_pathways_build a = .ok req → runTransport t req = .error e → e.descriptive →
      ∃ v, get_all_pathways t a = .ok v ∧ jGet v "status" = some (.str "error") ∧
        ∃ m, jGet v "message" = some (.str m) ∧ m ≠ "") ∧
    (∀ (t : Transport) (a : CreatePathwayArgs) (req : Request) (e : RequestExc),
      create_pathway_build a = .ok req → runTransport t req = .error e → e.descriptive →
      ∃ v, create_pathway t a = .ok v ∧ jGet v "status" = some (.str "error") ∧
        ∃ m, jGet v "message" = some (.str m) ∧ m ≠ "") := by
  refine ⟨?_, ?_, ?_, ?_, ?_, ?_, ?_, ?_, ?_, ?_, ?_, ?_, ?_⟩ <;>
    intro t a req e hb ht hd
  case _ => exact ⟨excDict e, runOp_transport_error hb ht, jGet_errorDict_status _,
    excMessage e, jGet_errorDict_message _, excMessage_ne_empty e hd⟩
  case _ => exact ⟨excDict e, runOp_transport_error hb ht, jGet_errorDict_status _,
    excMessage e, jGet_errorDict_message _, excMessage_ne_empty e hd⟩
  case _ => exact ⟨excDict e, runOp_transport_error hb ht, jGet_errorDict_status _,
    excMessage e, jGet_errorDict_message _, excMessage_ne_empty e hd⟩
  case _ => exact ⟨excDict e, runOp_transport_error hb ht, jGet_errorDict_status _,
    excMessage e, jGet_errorDict_message _, excMessage_ne_empty e hd⟩
  case _ => exact ⟨excDict e, runOp_transport_error hb ht, jGet_errorDict_status _,
    excMessage e, jGet_errorDict_message _, excMessage_ne_empty e hd⟩
  case _ => exact ⟨excDict e, runOp_transport_error hb ht, jGet_errorDict_status _,
    excMessage e, jGet_errorDict_message _, excMessage_ne_empty e hd⟩
  case _ => exact ⟨excDict e, runOp_transport_error hb ht, jGet_errorDict_status _,
    excMessage e, jGet_errorDict_message _, excMessage_ne_empty e hd⟩
  case _ =>
    refine ⟨listCustomToolsExcDict a.page e, runOp_transport_error hb ht, rfl,
      excMessage e, ?_, excMessage_ne_empty e hd⟩
    simp [jGet, listCustomToolsExcDict, List.lookup]
  case _ => exact ⟨excDict e, runOp_transport_error hb ht, jGet_errorDict_status _,
    excMessage e, jGet_errorDict_message _, excMessage_ne_empty e hd⟩
  case _ => exact ⟨excDict e, runOp_transport_error hb ht, jGet_errorDict_status _,
    excMessage e, jGet_errorDict_message _, excMessage_ne_empty e hd⟩
  case _ => exact ⟨excDict e, runOp_transport_error hb ht, jGet_errorDict_status _,
    excMessage e, jGet_errorDict_message _, excMessage_ne_empty e hd⟩
  case _ =>
    refine ⟨excDict e, ?_, jGet_errorDict_status _,
      excMessage e, jGet_errorDict_message _, excMessage_ne_empty e hd⟩
    simp [get_all_pathways, hb, ht]
  case _ => exact ⟨excDict e, runOp_transport_error hb ht, jGet_errorDict_status _,
    excMessage e, jGet_errorDict_message _, excMessage_ne_empty e hd⟩

/-- Concrete instance of the transport-error theorem: `get_pathway_info`
under a transport whose connection fails returns the normalized error
value with a non-empty message. -/
theorem transport_errors_normalized_witness :
    ∃ v, get_pathway_info connFailTransport { auth_token := "tok", pathway_id := "p1" } = .ok v ∧
      jGet v "status" = some (.str "error") ∧
      ∃ m, jGet v "message" = some (.str m) ∧ m ≠ "" :=
  transport_errors_normalized.2.2.2.2.2.1 connFailTransport
    { auth_token := "tok", pathway_id := "p1" } _ _ rfl rfl
    (by simp [RequestExc.descriptive])

/-- C5: `send_call` and `send_batch_calls` raise the one-of error exactly
when both `task` and `pathway_id` are missing/empty (after the auth and
phone presence checks), independently of the transport; when either is
provided the one-of error can never be the outcome of the build phase. -/
theorem one_of_task_pathway_required :
    (∀ (t : Transport) (a : SendCallArgs), a.auth_token ≠ "" → a.phone_number ≠ "" →
      strTruthy a.task = false → strTruthy a.pathway_id = false →
      send_call t a = .error "Either task or pathway_id must be provided") ∧
    (∀ (t : Transport) (a : SendBatchCallsArgs), a.auth_token ≠ "" → a.phone_numbers ≠ [] →
      strTruthy a.pathway_id = false → strTruthy a.task = false →
      send_batch_calls t a = .error "Either pathway_id or task must be provided") ∧
    (∀ a : SendCallArgs, strTruthy a.task = true ∨ strTruthy a.pathway_id = true →
      send_call_build a ≠ .error "Either task or pathway_id must be provided") ∧
    (∀ a : SendBatchCallsArgs, strTruthy a.pathway_id = true ∨ strTruthy a.task = true →
      send_batch_calls_build a ≠ .error "Either pathway_id or task must be provided") := by
  refine ⟨?_, ?_, ?_, ?_⟩
  · intro t a h1 h2 h3 h4
    unfold send_call runOp send_call_build
    rw [if_neg h1, if_neg h2, if_pos ⟨h3, h4⟩]
  · intro t a h1 h2 h3 h4
    unfold send_batch_calls runOp send_batch_calls_build
    rw [if_neg h1, if_neg h2, if_pos ⟨h3, h4⟩]
  · intro a h hc
    unfold send_call_build at hc
    repeat' split at hc
    all_goals try simp only [] at hc
    all_goals repeat' split at hc
    all_goals simp_all [ERROR_MISSING_AUTH, ERROR_MISSING_PHONE, ERROR_INVALID_PHONE,
      ERROR_INVALID_MODEL]
  · intro a h hc
    unfold send_batch_calls_build at hc
    repeat' split at hc
    all_goals try simp only [] at hc
    all_goals repeat' split at hc
    all_goals solve
      | simp_all [ERROR_MISSING_AUTH, ERROR_MISSING_PHONE]
      | (injection hc with hmsg
         have h2 := congrArg String.data hmsg
         simp [ERROR_INVALID_PHONE] at h2)

/-- Concrete instance of the one-of theorem: `send_call` with neither task
nor pathway raises the one-of error; providing a task makes that error
impossible. -/
theorem one_of_task_pathway_required_witness :
    send_call connFailTransport { auth_token := "tok", phone_number := "+12025550101" } =
      .error "Either task or pathway_id must be provided" ∧
    send_call_build { auth_token := "tok", phone_number := "+12025550101", task := some "hi" } ≠
      .error "Either task or pathway_id must be provided" :=
  ⟨one_of_task_pathway_required.1 connFailTransport
      { auth_token := "tok", phone_number := "+12025550101" }
      (by decide) (by decide) rfl rfl,
   one_of_task_pathway_required.2.2.1
      { auth_token := "tok", phone_number := "+12025550101", task := some "hi" }
      (Or.inl (by decide))⟩

/-- C6: whenever `create_custom_tool` builds a request, the body's `method`
entry is the upper-cased method; any method whose upper-casing lies in
`{GET, POST, PUT, DELETE}` is accepted (given the required fields), while a
method upper-casing to `PATCH` is rejected with the invalid-method error
before any transport activity. -/
theorem create_custom_tool_method_enum :
    (∀ (a : CreateCustomToolArgs) (req : Request),
      create_custom_tool_build a = .ok req →
      req.body.lookup "method" = some (.str (pyUpper a.method))) ∧
    (∀ a : CreateCustomToolArgs, a.auth_token ≠ "" → a.name ≠ "" → a.description ≠ "" →
      a.endpoint ≠ "" → a.method ≠ "" → a.parameters.isEmpty = false →
      pyUpper a.method ∈ ["GET", "POST", "PUT", "DELETE"] →
      buildSucceeds (create_custom_tool_build a) = true) ∧
    (∀ (t : Transport) (a : CreateCustomToolArgs), a.auth_token ≠ "" → a.name ≠ "" →
      a.description ≠ "" → a.endpoint ≠ "" → a.method ≠ "" → a.parameters.isEmpty = false →
      pyUpper a.method = "PATCH" →
      create_custom_tool t a = .error "Invalid method. Must be one of: GET, POST, PUT, DELETE") := by
  refine ⟨?_, ?_, ?_⟩
  · intro a req hb
    unfold create_custom_tool_build at hb
    repeat' split at hb
    any_goals exact Except.noConfusion hb
    all_goals
      cases hb <;> simp [List.lookup, List.cons_append]
  · intro a h1 h2 h3 h4 h5 h6 h7
    unfold create_custom_tool_build
    rw [if_neg h1, if_neg h2, if_neg h3, if_neg h4, if_neg h5,
      if_neg (by simp [h6]), if_neg (by simp [h7])]
    rfl
  · intro t a h1 h2 h3 h4 h5 h6 h7
    unfold create_custom_tool runOp create_custom_tool_build
    rw [if_neg h1, if_neg h2, if_neg h3, if_neg h4, if_neg h5,
      if_neg (by simp [h6]), if_pos (by simp [h7])]

/-- Concrete instance of the method-enum theorem: `"get"` is accepted and
stored upper-cased, `"patch"` is rejected with the invalid-method error. -/
theorem create_custom_tool_method_enum_witness :
    buildSucceeds (create_custom_tool_build
      { auth_token := "tok", name := "n", description := "d", endpoint := "https://e",
        method := "get", parameters := [.str "p"] }) = true ∧
    create_custom_tool connFailTransport
      { auth_token := "tok", name := "n", description := "d", endpoint := "https://e",
        method := "patch", parameters := [.str "p"] } =
      .error "Invalid method. Must be one of: GET, POST, PUT, DELETE" :=
  ⟨create_custom_tool_method_enum.2.1
      { auth_token := "tok", name := "n", description := "d", endpoint := "https://e",
        method := "get", parameters := [.str "p"] }
      (by decide) (by decide) (by decide) (by decide) (by decide) rfl (by decide),
   create_custom_tool_method_enum.2.2 connFailTransport
      { auth_token := "tok", name := "n", description := "d", endpoint := "https://e",
        method := "patch", parameters := [.str "p"] }
      (by decide) (by decide) (by decide) (by decide) (by decide) rfl (by decide)⟩

theorem filterNone_cons_none (k : String) (ps : List (String × Option JVal)) :
    filterNone ((k, none) :: ps) = filterNone ps := rfl

theorem filterNone_cons_some (k : String) (v : JVal) (ps : List (String × Option JVal)) :
    filterNone ((k, some v) :: ps) = (k, v) :: filterNone ps := rfl

theorem lookup_filterNone_cons_ne {k k' : String} (h : (k == k') = false)
    (o : Option JVal) (ps : List (String × Option JVal)) :
    (filterNone ((k', o) :: ps)).lookup k = (filterNone ps).lookup k := by
  cases o <;> simp [filterNone, List.lookup, h]

theorem lookup_filterNone_of_mem (k : String) (ps : List (String × Option JVal))
    (hall : ∀ p ∈ ps, p.1 = k → p.2 ≠ none) :
    (filterNone ps).lookup k = (ps.lookup k).join := by
  induction ps with
  | nil => simp [filterNone]
  | cons hd tl ih =>
    obtain ⟨k', o⟩ := hd
    have htl : ∀ p ∈ tl, p.1 = k → p.2 ≠ none := fun p hp => hall p (List.mem_cons_of_mem _ hp)
    cases o with
    | none =>
      have hne : (k == k') = false := by
        cases hb : (k == k') with
        | false => rfl
        | true =>
          have hkk : k' = k := (eq_of_beq hb).symm
          exact absurd rfl (hall (k', none) (List.mem_cons_self _ _) hkk)
      rw [filterNone_cons_none]
      simp only [List.lookup, hne]
      exact ih htl
    | some v =>
      by_cases hk : (k == k') = true
      · rw [filterNone_cons_some]
        simp [List.lookup, hk, Option.join]
      · have hne : (k == k') = false := by
          cases hb : (k == k') with
          | false => rfl
          | true => exact absurd hb hk
        rw [filterNone_cons_some]
        simp only [List.lookup, hne]
        exact ih htl

theorem send_call_build_body {a : SendCallArgs} {req : Request}
    (h : send_call_build a = .ok req) :
    req.body = ("phone_number", .str (cleanPhone a.phone_number)) ::
      filterNone (send_call_optional_params a) := by
  unfold send_call_build at h
  repeat' split at h
  all_goals try simp only [] at h
  all_goals repeat' split at h
  any_goals exact Except.noConfusion h
  all_goals cases h
  all_goals rfl

/-- C10: every request `send_call` builds carries the four default-`False`
boolean flags in its JSON body with exactly the caller's values — only
`None`-valued parameters are filtered out — so a caller omitting them still
sends them as `false`, as the concrete minimal call shows. -/
theorem send_call_bool_flags_always_in_body :
    (∀ (a : SendCallArgs) (req : Request), send_call_build a = .ok req →
      req.body.lookup "wait_for_greeting" = some (.bool a.wait_for_greeting) ∧
      req.body.lookup "block_interruptions" = some (.bool a.block_interruptions) ∧
      req.body.lookup "record" = some (.bool a.record) ∧
      req.body.lookup "answered_by_enabled" = some (.bool a.answered_by_enabled)) ∧
    (bodyLookup (send_call_build { auth_token := "tok", phone_number := "+12025550101", task := some "hi" }) "wait_for_greeting" = some (.bool false) ∧
     bodyLookup (send_call_build { auth_token := "tok", phone_number := "+12025550101", task := some "hi" }) "block_interruptions" = some (.bool false) ∧
     bodyLookup (send_call_build { auth_token := "tok", phone_number := "+12025550101", task := some "hi" }) "record" = some (.bool false) ∧
     bodyLookup (send_call_build { auth_token := "tok", phone_number := "+12025550101", task := some "hi" }) "answered_by_enabled" = some (.bool false)) := by
  constructor
  · intro a req hb
    have hbody := send_call_build_body hb
    rw [hbody]
    refine ⟨?_, ?_, ?_, ?_⟩ <;>
    · simp +decide only [List.lookup]
      rw [lookup_filterNone_of_mem]
      · simp +decide [send_call_optional_params, List.lookup]
      · simp +decide [send_call_optional_params]
  · exact ⟨rfl, rfl, rfl, rfl⟩

/-- Concrete instance of the boolean-flags theorem, obtained by applying it
to the minimal valid `send_call` arguments. -/
theorem send_call_bool_flags_always_in_body_witness :
    ∃ req, send_call_build { auth_token := "tok", phone_number := "+12025550101", task := some "hi" } = .ok req ∧
      req.body.lookup "record" = some (.bool false) :=
  ⟨_, rfl,
    (send_call_bool_flags_always_in_body.1
      { auth_token := "tok", phone_number := "+12025550101", task := some "hi" }
      _ rfl).2.2.1⟩

/-- C3 counterexample: the claim says `"12025550101"` (no leading plus) and
`"+1202555010"` are rejected, but the pattern `^\+?\d{10,15}$` makes the
plus optional and `"+1202555010"` carries 10 digits, so both inputs pass
validation in `send_call` and `send_call_simple` and no
`InvalidPhoneNumber` error is raised. -/
theorem phone_validation_counterexample :
    matchesPhonePattern (cleanPhone "12025550101") = true ∧
    matchesPhonePattern (cleanPhone "+1202555010") = true ∧
    buildSucceeds (send_call_build { auth_token := "tok", phone_number := "12025550101", task := some "x" }) = true ∧
    buildSucceeds (send_call_simple_build { auth_token := "tok", phone_number := "12025550101", task := "x" }) = true ∧
    buildSucceeds (send_call_simple_build { auth_token := "tok", phone_number := "+1202555010", task := "x" }) = true := by
  decide

/-- C3 amended: `"+12025550101"` is accepted (and forwarded in the body);
`"12025550101"` is also accepted because the pattern's leading plus is
optional; `"+1202555010"` (10 digits) is also accepted; only
`"+1202555010111111"` (16 digits) is rejected, raising the invalid-phone
error independently of the transport, i.e. before any request is sent. -/
theorem phone_validation_amended :
    matchesPhonePattern (cleanPhone "+12025550101") = true ∧
    bodyLookup (send_call_simple_build { auth_token := "tok", phone_number := "+12025550101", task := "x" })
      "phone_number" = some (.str "+12025550101") ∧
    matchesPhonePattern (cleanPhone "12025550101") = true ∧
    matchesPhonePattern (cleanPhone "+1202555010") = true ∧
    matchesPhonePattern (cleanPhone "+1202555010111111") = false ∧
    (∀ t : Transport,
      send_call t { auth_token := "tok", phone_number := "+1202555010111111", task := some "x" } =
        .error ERROR_INVALID_PHONE) ∧
    (∀ t : Transport,
      send_call_simple t { auth_token := "tok", phone_number := "+1202555010111111", task := "x" } =
        .error ERROR_INVALID_PHONE) := by
  refine ⟨by decide, rfl, by decide, by decide, by decide, ?_, ?_⟩ <;> intro t <;> rfl

/-- C4 counterexample: `send_call` performs no temperature validation —
with `temperature = 1.5` the build succeeds and the value `1.5` is placed
unmodified under the body's `temperature` key, so no range error is raised
for this call-send operation. -/
theorem temperature_validation_counterexample :
    buildSucceeds (send_call_build { auth_token := "tok", phone_number := "+12025550101", task := some "x", temperature := mkRat 3 2 }) = true ∧
    bodyLookup (send_call_build { auth_token := "tok", phone_number := "+12025550101", task := some "x", temperature := mkRat 3 2 })
      "temperature" = some (.rat (mkRat 3 2)) := by
  exact ⟨by decide, rfl⟩

/-- C4 amended: `send_batch_calls` rejects temperature `1.5` with the range
error independently of the transport and accepts `0.7` unmodified in the
body, while `send_call` applies no temperature check at all: every
temperature `q` passes its build and lands unmodified in the body. -/
theorem temperature_validation_amended :
    (∀ t : Transport,
      send_batch_calls t { auth_token := "tok", phone_numbers := ["+12025550101"], task := some "x", temperature := some (mkRat 3 2) } =
        .error "Temperature must be between 0.0 and 1.0") ∧
    bodyLookup (send_batch_calls_build { auth_token := "tok", phone_numbers := ["+12025550101"], task := some "x", temperature := some (mkRat 7 10) })
      "temperature" = some (.rat (mkRat 7 10)) ∧
    bodyLookup (send_call_build { auth_token := "tok", phone_number := "+12025550101", task := some "x", temperature := mkRat 7 10 })
      "temperature" = some (.rat (mkRat 7 10)) ∧
    (∀ q : ℚ,
      buildSucceeds (send_call_build { auth_token := "tok", phone_number := "+12025550101", task := some "x", temperature := q }) = true ∧
      bodyLookup (send_call_build { auth_token := "tok", phone_number := "+12025550101", task := some "x", temperature := q })
        "temperature" = some (.rat q)) := by
  refine ⟨fun t => rfl, rfl, rfl, fun q => ⟨rfl, rfl⟩⟩

/-- C7 counterexample: `list_calls` accepts the pagination parameter
`limit` but never validates it — with `limit = 0` (below the claimed
minimum of 1) the build succeeds and `0` is passed through as the `limit`
query parameter, so no error is raised. -/
theorem pagination_validation_counterexample :
    buildSucceeds (list_calls_build { auth_token := "tok", limit := 0 }) = true ∧
    paramsLookup (list_calls_build { auth_token := "tok", limit := 0 }) "limit" = some (.int 0) := by
  exact ⟨by decide, rfl⟩

/-- C7 amended: `list_batches` and `list_web_agents` reject `limit < 1` and
`offset < 0`, and `list_custom_tools` rejects `page < 1` and `limit < 1`,
each before any transport activity, passing in-range values through
unchanged; but `list_calls` and `get_all_pathways` pass `limit` (and
`offset`) through as query parameters with no validation at all. -/
theorem pagination_validation_amended :
    (∀ (t : Transport) (a : ListBatchesArgs) (l : Int), a.auth_token ≠ "" →
      a.limit = some l → l < 1 →
      list_batches t a = .error "Limit must be greater than 0") ∧
    (∀ (t : Transport) (a : ListBatchesArgs) (o : Int), a.auth_token ≠ "" →
      limitBad a.limit = false → a.offset = some o → o < 0 →
      list_batches t a = .error "Offset must be greater than or equal to 0") ∧
    (∀ (t : Transport) (a : ListWebAgentsArgs) (l : Int), a.auth_token ≠ "" →
      a.limit = some l → l < 1 →
      list_web_agents t a = .error "Limit must be greater than 0") ∧
    (∀ (t : Transport) (a : ListWebAgentsArgs) (o : Int), a.auth_token ≠ "" →
      limitBad a.limit = false → a.offset = some o → o < 0 →
      list_web_agents t a = .error "Offset must be greater than or equal to 0") ∧
    (∀ (t : Transport) (a : ListCustomToolsArgs), a.auth_token ≠ "" → a.page < 1 →
      list_custom_tools t a = .error "Page number must be greater than 0") ∧
    (∀ (t : Transport) (a : ListCustomToolsArgs), a.auth_token ≠ "" → ¬ a.page < 1 →
      a.limit < 1 →
      list_custom_tools t a = .error "Limit must be greater than 0") ∧
    (paramsLookup (list_batches_build { auth_token := "tok", limit := some 5, offset := some 2 })
        "limit" = some (.int 5) ∧
     paramsLookup (list_batches_build { auth_token := "tok", limit := some 5, offset := some 2 })
        "offset" = some (.int 2)) ∧
    (paramsLookup (list_custom_tools_build { auth_token := "tok", page := 3, limit := 7 })
        "page" = some (.int 3) ∧
     paramsLookup (list_custom_tools_build { auth_token := "tok", page := 3, limit := 7 })
        "limit" = some (.int 7)) ∧
    (∀ l : Int, buildSucceeds (list_calls_build { auth_token := "tok", limit := l }) = true ∧
      paramsLookup (list_calls_build { auth_token := "tok", limit := l }) "limit" = some (.int l)) ∧
    (∀ l o : Int, buildSucceeds (get_all_pathways_build { auth_token := "tok", limit := l, offset := o }) = true ∧
      paramsLookup (get_all_pathways_build { auth_token := "tok", limit := l, offset := o })
        "limit" = some (.int l) ∧
      paramsLookup (get_all_pathways_build { auth_token := "tok", limit := l, offset := o })
        "offset" = some (.int o)) := by
  refine ⟨?_, ?_, ?_, ?_, ?_, ?_, ⟨rfl, rfl⟩, ⟨rfl, rfl⟩,
    fun l => ⟨rfl, rfl⟩, fun l o => ⟨rfl, rfl, rfl⟩⟩
  · intro t a l h1 h2 h3
    unfold list_batches runOp list_batches_build
    rw [if_neg h1, if_pos (by simp [limitBad, h2, h3])]
  · intro t a o h1 h2 h3 h4
    unfold list_batches runOp list_batches_build
    rw [if_neg h1, if_neg (by simp [h2]), if_pos (by simp [offsetBad, h3, h4])]
  · intro t a l h1 h2 h3
    unfold list_web_agents runOp list_web_agents_build
    rw [if_neg h1, if_pos (by simp [limitBad, h2, h3])]
  · intro t a o h1 h2 h3 h4
    unfold list_web_agents runOp list_web_agents_build
    rw [if_neg h1, if_neg (by simp [h2]), if_pos (by simp [offsetBad, h3, h4])]
  · intro t a h1 h2
    unfold list_custom_tools runOp list_custom_tools_build
    rw [if_neg h1, if_pos h2]
  · intro t a h1 h2 h3
    unfold list_custom_tools runOp list_custom_tools_build
    rw [if_neg h1, if_neg h2, if_pos h3]

/-- Concrete instance of the amended pagination theorem: `list_batches`
with `limit = 0` raises the limit error and `list_custom_tools` with
`page = 0` raises the page error. -/
theorem pagination_validation_amended_witness :
    list_batches connFailTransport { auth_token := "tok", limit := some 0 } =
      .error "Limit must be greater than 0" ∧
    list_custom_tools connFailTransport { auth_token := "tok", page := 0 } =
      .error "Page number must be greater than 0" :=
  ⟨pagination_validation_amended.1 connFailTransport { auth_token := "tok", limit := some 0 }
      0 (by decide) rfl (by decide),
   pagination_validation_amended.2.2.2.2.1 connFailTransport { auth_token := "tok", page := 0 }
      (by decide) (by decide)⟩

theorem send_call_build_orgHeaders {a : SendCallArgs} {req : Request}
    (h : send_call_build a = .ok req) :
    orgHeaders req =
      (if strTruthy a.org_id = true then [("organization", a.org_id.getD "")] else []) := by
  unfold send_call_build at h
  repeat' split at h
  all_goals try simp only [] at h
  all_goals repeat' split at h
  any_goals exact Except.noConfusion h
  all_goals cases h
  all_goals simp_all [orgHeaders, List.filter]

theorem send_call_simple_build_orgHeaders {a : SendCallSimpleArgs} {req : Request}
    (h : send_call_simple_build a = .ok req) :
    orgHeaders req =
      (if strTruthy a.org_id = true then [("organization", a.org_id.getD "")] else []) := by
  unfold send_call_simple_build at h
  repeat' split at h
  all_goals try simp only [] at h
  all_goals repeat' split at h
  any_goals exact Except.noConfusion h
  all_goals cases h
  all_goals simp_all [orgHeaders, List.filter]

theorem send_call_pathway_simple_build_orgHeaders {a : SendCallPathwaySimpleArgs} {req : Request}
    (h : send_call_pathway_simple_build a = .ok req) :
    orgHeaders req =
      (if strTruthy a.org_id = true then [("organization", a.org_id.getD "")] else []) := by
  unfold send_call_pathway_simple_build at h
  repeat' split at h
  all_goals try simp only [] at h
  all_goals repeat' split at h
  any_goals exact Except.noConfusion h
  all_goals cases h
  all_goals simp_all [orgHeaders, List.filter]

theorem send_batch_calls_build_orgHeaders {a : SendBatchCallsArgs} {req : Request}
    (h : send_batch_calls_build a = .ok req) :
    orgHeaders req =
      (if strTruthy a.org_id = true then [("encrypted_key", a.org_id.getD "")] else []) := by
  unfold send_batch_calls_build at h
  repeat' split at h
  all_goals try simp only [] at h
  all_goals repeat' split at h
  any_goals exact Except.noConfusion h
  all_goals cases h
  all_goals simp_all [orgHeaders, List.filter]

theorem get_pathway_info_build_orgHeaders {a : GetPathwayInfoArgs} {req : Request}
    (h : get_pathway_info_build a = .ok req) :
    orgHeaders req =
      (if strTruthy a.org_id = true then [("encrypted_key", a.org_id.getD "")] else []) := by
  unfold get_pathway_info_build at h
  repeat' split at h
  all_goals try simp only [] at h
  all_goals repeat' split at h
  any_goals exact Except.noConfusion h
  all_goals cases h
  all_goals simp_all [orgHeaders, List.filter]

theorem create_custom_tool_build_orgHeaders {a : CreateCustomToolArgs} {req : Request}
    (h : create_custom_tool_build a = .ok req) :
    orgHeaders req =
      (if strTruthy a.org_id = true then [("encrypted_key", a.org_id.getD "")] else []) := by
  unfold create_custom_tool_build at h
  repeat' split at h
  all_goals try simp only [] at h
  all_goals repeat' split at h
  any_goals exact Except.noConfusion h
  all_goals cases h
  all_goals simp_all [orgHeaders, List.filter]

theorem list_custom_tools_build_orgHeaders {a : ListCustomToolsArgs} {req : Request}
    (h : list_custom_tools_build a = .ok req) :
    orgHeaders req =
      (if strTruthy a.org_id = true then [("encrypted_key", a.org_id.getD "")] else []) := by
  unfold list_custom_tools_build at h
  repeat' split at h
  all_goals try simp only [] at h
  all_goals repeat' split at h
  any_goals exact Except.noConfusion h
  all_goals cases h
  all_goals simp_all [orgHeaders, List.filter]

theorem list_batches_build_orgHeaders {a : ListBatchesArgs} {req : Request}
    (h : list_batches_build a = .ok req) :
    orgHeaders req =
      (if strTruthy a.org_id = true then [("encrypted_key", a.org_id.getD "")] else []) := by
  unfold list_batches_build at h
  repeat' split at h
  all_goals try simp only [] at h
  all_goals repeat' split at h
  any_goals exact Except.noConfusion h
  all_goals cases h
  all_goals simp_all [orgHeaders, List.filter]

theorem list_web_agents_build_orgHeaders {a : ListWebAgentsArgs} {req : Request}
    (h : list_web_agents_build a = .ok req) :
    orgHeaders req =
      (if strTruthy a.org_id = true then [("encrypted_key", a.org_id.getD "")] else []) := by
  unfold list_web_agents_build at h
  repeat' split at h
  all_goals try simp only [] at h
  all_goals repeat' split at h
  any_goals exact Except.noConfusion h
  all_goals cases h
  all_goals simp_all [orgHeaders, List.filter]

theorem list_calls_build_orgHeaders {a : ListCallsArgs} {req : Request}
    (h : list_calls_build a = .ok req) :
    orgHeaders req =
      (if strTruthy a.org_id = true then [("encrypted_key", a.org_id.getD "")] else []) := by
  unfold list_calls_build at h
  repeat' split at h
  all_goals try simp only [] at h
  all_goals repeat' split at h
  any_goals exact Except.noConfusion h
  all_goals cases h
  all_goals simp_all [orgHeaders, List.filter]

theorem get_all_pathways_build_orgHeaders {a : GetAllPathwaysArgs} {req : Request}
    (h : get_all_pathways_build a = .ok req) :
    orgHeaders req =
      (if strTruthy a.org_id = true then [("encrypted_key", a.org_id.getD "")] else []) := by
  unfold get_all_pathways_build at h
  repeat' split at h
  all_goals try simp only [] at h
  all_goals repeat' split at h
  any_goals exact Except.noConfusion h
  all_goals cases h
  all_goals simp_all [orgHeaders, List.filter]

theorem create_pathway_build_orgHeaders {a : CreatePathwayArgs} {req : Request}
    (h : create_pathway_build a = .ok req) :
    orgHeaders req =
      (if strTruthy a.org_id = true then [("encrypted_key", a.org_id.getD "")] else []) := by
  unfold create_pathway_build at h
  repeat' split at h
  all_goals try simp only [] at h
  all_goals repeat' split at h
  any_goals exact Except.noConfusion h
  all_goals cases h
  all_goals simp_all [orgHeaders, List.filter]

/-- C8: across the embedded operations, a truthy organization id is
attached as exactly one secondary header — named `organization` by the
single-call-sending operations (`send_call`, `send_call_simple`,
`send_call_pathway_simple`) and `encrypted_key` by every other operation,
two distinct names — and a missing/empty organization id yields no such
header at all. -/
theorem org_id_secondary_header :
    ("organization" : String) ≠ "encrypted_key" ∧
    (∀ (a : SendCallArgs) (req : Request) (o : String), a.org_id = some o → o ≠ "" →
      send_call_build a = .ok req → orgHeaders req = [("organization", o)]) ∧
    (∀ (a : SendCallArgs) (req : Request), strTruthy a.org_id = false →
      send_call_build a = .ok req → orgHeaders req = []) ∧
    (∀ (a : SendCallSimpleArgs) (req : Request) (o : String), a.org_id = some o → o ≠ "" →
      send_call_simple_build a = .ok req → orgHeaders req = [("organization", o)]) ∧
    (∀ (a : SendCallSimpleArgs) (req : Request), strTruthy a.org_id = false →
      send_call_simple_build a = .ok req → orgHeaders req = []) ∧
    (∀ (a : SendCallPathwaySimpleArgs) (req : Request) (o : String), a.org_id = some o → o ≠ "" →
      send_call_pathway_simple_build a = .ok req → orgHeaders req = [("organization", o)]) ∧
    (∀ (a : SendCallPathwaySimpleArgs) (req : Request), strTruthy a.org_id = false →
      send_call_pathway_simple_build a = .ok req → orgHeaders req = []) ∧
    (∀ (a : SendBatchCallsArgs) (req : Request) (o : String), a.org_id = some o → o ≠ "" →
      send_batch_calls_build a = .ok req → orgHeaders req = [("encrypted_key", o)]) ∧
    (∀ (a : SendBatchCallsArgs) (req : Request), strTruthy a.org_id = false →
      send_batch_calls_build a = .ok req → orgHeaders req = []) ∧
    (∀ (a : GetPathwayInfoArgs) (req : Request) (o : String), a.org_id = some o → o ≠ "" →
      get_pathway_info_build a = .ok req → orgHeaders req = [("encrypted_key", o)]) ∧
    (∀ (a : GetPathwayInfoArgs) (req : Request), strTruthy a.org_id = false →
      get_pathway_info_build a = .ok req → orgHeaders req = []) ∧
    (∀ (a : CreateCustomToolArgs) (req : Request) (o : String), a.org_id = some o → o ≠ "" →
      create_custom_tool_build a = .ok req → orgHeaders req = [("encrypted_key", o)]) ∧
    (∀ (a : CreateCustomToolArgs) (req : Request), strTruthy a.org_id = false →
      create_custom_tool_build a = .ok req → orgHeaders req = []) ∧
    (∀ (a : ListCustomToolsArgs) (req : Request) (o : String), a.org_id = some o → o ≠ "" →
      list_custom_tools_build a = .ok req → orgHeaders req = [("encrypted_key", o)]) ∧
    (∀ (a : ListCustomToolsArgs) (req : Request), strTruthy a.org_id = false →
      list_custom_tools_build a = .ok req → orgHeaders req = []) ∧
    (∀ (a : ListBatchesArgs) (req : Request) (o : String), a.org_id = some o → o ≠ "" →
      list_batches_build a = .ok req → orgHeaders req = [("encrypted_key", o)]) ∧
    (∀ (a : ListBatchesArgs) (req : Request), strTruthy a.org_id = false →
      list_batches_build a = .ok req → orgHeaders req = []) ∧
    (∀ (a : ListWebAgentsArgs) (req : Request) (o : String), a.org_id = some o → o ≠ "" →
      list_web_agents_build a = .ok req → orgHeaders req = [("encrypted_key", o)]) ∧
    (∀ (a : ListWebAgentsArgs) (req : Request), strTruthy a.org_id = false →
      list_web_agents_build a = .ok req → orgHeaders req = []) ∧
    (∀ (a : ListCallsArgs) (req : Request) (o : String), a.org_id = some o → o ≠ "" →
      list_calls_build a = .ok req → orgHeaders req = [("encrypted_key", o)]) ∧
    (∀ (a : ListCallsArgs) (req : Request), strTruthy a.org_id = false →
      list_calls_build a = .ok req → orgHeaders req = []) ∧
    (∀ (a : GetAllPathwaysArgs) (req : Request) (o : String), a.org_id = some o → o ≠ "" →
      get_all_pathways_build a = .ok req → orgHeaders req = [("encrypted_key", o)]) ∧
    (∀ (a : GetAllPathwaysArgs) (req : Request), strTruthy a.org_id = false →
      get_all_pathways_build a = .ok req → orgHeaders req = []) ∧
    (∀ (a : CreatePathwayArgs) (req : Request) (o : String), a.org_id = some o → o ≠ "" →
      create_pathway_build a = .ok req → orgHeaders req = [("encrypted_key", o)]) ∧
    (∀ (a : CreatePathwayArgs) (req : Request), strTruthy a.org_id = false →
      create_pathway_build a = .ok req → orgHeaders req = []) := by
  refine ⟨?_, ?_, ?_, ?_, ?_, ?_, ?_, ?_, ?_, ?_, ?_, ?_, ?_, ?_, ?_, ?_, ?_, ?_, ?_, ?_, ?_, ?_, ?_, ?_, ?_⟩
  · decide
  · intro a req o ho hne hb
    rw [send_call_build_orgHeaders hb]
    simp [strTruthy, ho, hne]
  · intro a req h hb
    rw [send_call_build_orgHeaders hb, h]
    simp
  · intro a req o ho hne hb
    rw [send_call_simple_build_orgHeaders hb]
    simp [strTruthy, ho, hne]
  · intro a req h hb
    rw [send_call_simple_build_orgHeaders hb, h]
    simp
  · intro a req o ho hne hb
    rw [send_call_pathway_simple_build_orgHeaders hb]
    simp [strTruthy, ho, hne]
  · intro a req h hb
    rw [send_call_pathway_simple_build_orgHeaders hb, h]
    simp
  · intro a req o ho hne hb
    rw [send_batch_calls_build_orgHeaders hb]
    simp [strTruthy, ho, hne]
  · intro a req h hb
    rw [send_batch_calls_build_orgHeaders hb, h]
    simp
  · intro a req o ho hne hb
    rw [get_pathway_info_build_orgHeaders hb]
    simp [strTruthy, ho, hne]
  · intro a req h hb
    rw [get_pathway_info_build_orgHeaders hb, h]
    simp
  · intro a req o ho hne hb
    rw [create_custom_tool_build_orgHeaders hb]
    simp [strTruthy, ho, hne]
  · intro a req h hb
    rw [create_custom_tool_build_orgHeaders hb, h]
    simp
  · intro a req o ho hne hb
    rw [list_custom_tools_build_orgHeaders hb]
    simp [strTruthy, ho, hne]
  · intro a req h hb
    rw [list_custom_tools_build_orgHeaders hb, h]
    simp
  · intro a req o ho hne hb
    rw [list_batches_build_orgHeaders hb]
    simp [strTruthy, ho, hne]
  · intro a req h hb
    rw [list_batches_build_orgHeaders hb, h]
    simp
  · intro a req o ho hne hb
    rw [list_web_agents_build_orgHeaders hb]
    simp [strTruthy, ho, hne]
  · intro a req h hb
    rw [list_web_agents_build_orgHeaders hb, h]
    simp
  · intro a req o ho hne hb
    rw [list_calls_build_orgHeaders hb]
    simp [strTruthy, ho, hne]
  · intro a req h hb
    rw [list_calls_build_orgHeaders hb, h]
    simp
  · intro a req o ho hne hb
    rw [get_all_pathways_build_orgHeaders hb]
    simp [strTruthy, ho, hne]
  · intro a req h hb
    rw [get_all_pathways_build_orgHeaders hb, h]
    simp
  · intro a req o ho hne hb
    rw [create_pathway_build_orgHeaders hb]
    simp [strTruthy, ho, hne]
  · intro a req h hb
    rw [create_pathway_build_orgHeaders hb, h]
    simp

/-- Concrete instance of the organization-header theorem: `send_call`
attaches `organization` and `get_pathway_info` attaches `encrypted_key`;
without an organization id `get_pathway_info` attaches neither. -/
theorem org_id_secondary_header_witness :
    (∃ req, send_call_build { auth_token := "tok", phone_number := "+12025550101", task := some "x", org_id := some "org1" } = .ok req ∧
      orgHeaders req = [("organization", "org1")]) ∧
    (∃ req, get_pathway_info_build { auth_token := "tok", pathway_id := "p1", org_id := some "org1" } = .ok req ∧
      orgHeaders req = [("encrypted_key", "org1")]) ∧
    (∃ req, get_pathway_info_build { auth_token := "tok", pathway_id := "p1" } = .ok req ∧
      orgHeaders req = []) :=
  ⟨⟨_, rfl, org_id_secondary_header.2.1
      { auth_token := "tok", phone_number := "+12025550101", task := some "x", org_id := some "org1" }
      _ "org1" rfl (by decide) rfl⟩,
   ⟨_, rfl, org_id_secondary_header.2.2.2.2.2.2.2.2.2.1
      { auth_token := "tok", pathway_id := "p1", org_id := some "org1" }
      _ "org1" rfl (by decide) rfl⟩,
   ⟨_, rfl, org_id_secondary_header.2.2.2.2.2.2.2.2.2.2.1
      { auth_token := "tok", pathway_id := "p1" } _ rfl rfl⟩⟩
